import Mathlib

/-!
Verification of the paymentscreen client: a shallow embedding of the
wallet-environment classifier, parameter validation, the connection retry
loop, the debug-log buffer, and the split-payment transaction orchestrator
(the executePayment function of the enhanced mobile payment flow), together
with theorems settling the specification claims about them.

External effects (RPC reads, wallet writes, HTTP calls) are modelled by an
explicit environment record giving each call's outcome; the orchestrator is
a pure function from the payment data, the connected address and that
environment to a trace (write calls made, delays awaited, notifications
attempted) plus a terminal step.
-/

namespace PaymentScreen

/-- JS string `haystack.includes(needle)` (case-sensitive substring test). -/
def strIncludes (hay sub : String) : Bool :=
  decide (sub.toList <:+: hay.toList)

/-- JS string-or idiom a || b: the empty string is falsy. -/
def jsOr (a b : String) : String :=
  if a = "" then b else a

/-- JS toLowerCase restricted to ASCII (Char.toLower per character). -/
def lowerString (s : String) : String :=
  String.mk (s.toList.map Char.toLower)

/-! ## Debug-log buffer (addDebugLog, component-local and store-based)

Both loggers append the new entry and keep the last 50 entries:
component: setDebugLogs(prev => [...prev, logEntry].slice(-50))
store:     set(state => ({ debugLogs: [...state.debugLogs, logEntry].slice(-50) }))
JS slice(-50) on an array of length n returns its last min(n, 50) elements. -/

/-- A debug log entry as built by the component-local addDebugLog
(id, type, message, serialized data, timestamp). -/
structure DebugLogEntry where
  id : Nat
  type : String
  message : String
  data : String
  timestamp : String
deriving DecidableEq, Repr

/-- A debug log entry as built by the store-based addDebugLog (adds iso). -/
structure StoreLogEntry where
  id : Nat
  type : String
  message : String
  data : String
  timestamp : String
  iso : String
deriving DecidableEq, Repr

/-- JS Array.prototype.slice(-50): the last min(length, 50) elements. -/
def sliceLast50 (l : List α) : List α :=
  l.drop (l.length - 50)

/-- Component-local addDebugLog, restricted to its buffer update:
[...prev, logEntry].slice(-50). -/
def addDebugLog (prev : List DebugLogEntry) (logEntry : DebugLogEntry) :
    List DebugLogEntry :=
  sliceLast50 (prev ++ [logEntry])

/-- Store-based addDebugLog (useProviderDetection store), buffer update:
[...state.debugLogs, logEntry].slice(-50). -/
def storeAddDebugLog (debugLogs : List StoreLogEntry)
    (logEntry : StoreLogEntry) : List StoreLogEntry :=
  sliceLast50 (debugLogs ++ [logEntry])

/-! ## Balance / allowance read retry (executePayment steps 1 and 2)

while (attempts < 3) { try read; break } catch { attempts++;
  if attempts >= 3 break; await delay(1000 * attempts) }
The attempt outcomes are given by f : Nat -> Option Nat (none = the RPC
call threw, some v = it returned v). Returns the final result (none iff
all three attempts threw) and the list of backoff delays awaited (ms). -/
def retryRead3 (f : Nat → Option Nat) : Option Nat × List Nat :=
  match f 0 with
  | some v => (some v, [])
  | none =>
    match f 1 with
    | some v => (some v, [1000])
    | none =>
      match f 2 with
      | some v => (some v, [1000, 2000])
      | none => (none, [1000, 2000])

/-! ## Connection retry loop (connectWallet)

connectWallet is a useCallback closure over the connectionAttempts React
state. Each invocation runs setConnectionAttempts(prev => prev + 1) and
calls connect(); the catch block then reads connectionAttempts — the value
frozen into the closure when its instance was created — and retries via
setTimeout(() => connectWallet(), delay) while that frozen value is below
2, otherwise it surfaces the connection error:
  if (connectionAttempts < 2) setTimeout(() => connectWallet(), 3000)
  else { setError(`Connection failed: ...`); setCurrentStep('error') }.
The timer callback closes over the same instance, so the frozen value
never advances along the self-rescheduled chain: the auto-connect chain
runs with frozen value 0 and retries indefinitely; the error branch can
run only in a closure instance created after at least two prior attempts
had already bumped the state. -/

/-- What one invocation of a connectWallet closure instance does. -/
inductive ConnOutcome where
  | connected
  | retryScheduled
  | errorSurfaced (msg : String)
deriving DecidableEq, Repr

/-- One invocation of a connectWallet closure instance whose captured
connectionAttempts value is frozen (none = connect() succeeded, some m =
it threw with message m): on failure the catch re-schedules the same
instance while frozen < 2 and otherwise surfaces the connection error. -/
def connectCall (frozen : Nat) (outcome : Option String) : ConnOutcome :=
  match outcome with
  | none => .connected
  | some m =>
    if frozen < 2 then .retryScheduled
    else .errorSurfaced ("Connection failed: " ++ m)

/-- Status of the self-rescheduled connection chain. -/
inductive ConnChainStatus where
  | retryPending
  | connected
  | errored (msg : String)
deriving DecidableEq, Repr

/-- State of the chain after some invocations: connect() calls performed,
the live connectionAttempts React state (incremented by every call but
never read by the frozen closure), and the chain status. -/
structure ConnChainState where
  callsMade : Nat
  stateCounter : Nat
  status : ConnChainStatus
deriving DecidableEq, Repr

/-- The timer-rescheduled chain of one connectWallet instance after n
invocations: every retry re-invokes the same closure, so the frozen
counter is constant along the chain (0 for the auto-connect chain);
outcome i gives the result of the i-th connect() call. -/
def connectChain (frozen : Nat) (outcome : Nat → Option String) :
    Nat → ConnChainState
  | 0 => ⟨0, frozen, .retryPending⟩
  | n + 1 =>
    let s := connectChain frozen outcome n
    match s.status with
    | .retryPending =>
      match connectCall frozen (outcome s.callsMade) with
      | .connected => ⟨s.callsMade + 1, s.stateCounter + 1, .connected⟩
      | .retryScheduled => ⟨s.callsMade + 1, s.stateCounter + 1, .retryPending⟩
      | .errorSurfaced m => ⟨s.callsMade + 1, s.stateCounter + 1, .errored m⟩
    | _ => s

/-! ## Wallet environment classifier (useProviderDetection.detectWalletEnvironment)

Inputs: window.ethereum (possibly absent), whether window.trustwallet is
mounted, and the raw navigator.userAgent. No URL hint is consulted. -/

/-- A provider object inside the co-mounted window.ethereum.providers array;
only the two vendor flags the classifier reads are modelled. -/
structure SubProvider where
  isMetaMask : Bool := false
  isCoinbaseWallet : Bool := false
deriving DecidableEq, Repr

/-- The window.ethereum provider object: the duck-typed vendor boolean flags
and the optional co-mounted providers array the classifier reads. -/
structure EthereumProvider where
  isMetaMask : Bool := false
  isTrust : Bool := false
  isTrustWallet : Bool := false
  isCoinbaseWallet : Bool := false
  isCoinbaseBrowser : Bool := false
  providers : Option (List SubProvider) := none
deriving DecidableEq, Repr

/-- Classified wallet vendor (the walletType strings of the source). -/
inductive WalletType where
  | trust
  | metamask
  | coinbase
  | unknown
deriving DecidableEq, Repr

/-- The environment descriptor returned by detectWalletEnvironment. -/
structure WalletEnvironment where
  isMobile : Bool
  isInAppBrowser : Bool
  walletType : WalletType
  hasEthereum : Bool
  hasMetaMask : Bool
  hasCoinbase : Bool
  hasTrust : Bool
  hasTrustWallet : Bool
deriving DecidableEq, Repr

/-- The mobile user-agent regex test
/android|webos|iphone|ipad|ipod|blackberry|iemobile|opera mini/i. -/
def isMobileUserAgent (rawUserAgent : String) : Bool :=
  let ua := (lowerString rawUserAgent)
  strIncludes ua "android" || strIncludes ua "webos" || strIncludes ua "iphone" ||
  strIncludes ua "ipad" || strIncludes ua "ipod" || strIncludes ua "blackberry" ||
  strIncludes ua "iemobile" || strIncludes ua "opera mini"

/-- detectWalletEnvironment of useProviderDetection.js: classify the wallet
environment from window.ethereum, window.trustwallet and the user agent. -/
def detectWalletEnvironment (ethereum : Option EthereumProvider)
    (trustwallet : Bool) (rawUserAgent : String) : WalletEnvironment :=
  let userAgent := (lowerString rawUserAgent)
  let providers : List SubProvider :=
    match ethereum with
    | some e => e.providers.getD []
    | none => []
  let hasMetaMask :=
    (match ethereum with | some e => e.isMetaMask | none => false) ||
    providers.any (fun p => p.isMetaMask)
  let hasCoinbase :=
    (match ethereum with
     | some e => e.isCoinbaseWallet || e.isCoinbaseBrowser
     | none => false) ||
    providers.any (fun p => p.isCoinbaseWallet)
  let hasTrust :=
    trustwallet ||
    (match ethereum with | some e => e.isTrust || e.isTrustWallet | none => false) ||
    strIncludes userAgent "trust"
  { isMobile := isMobileUserAgent rawUserAgent
    isInAppBrowser := (ethereum.isSome || trustwallet) &&
      (hasMetaMask || hasTrust || hasCoinbase)
    walletType :=
      if hasTrust then .trust
      else if hasMetaMask then .metamask
      else if hasCoinbase then .coinbase
      else if strIncludes userAgent "trust" then .trust
      else if strIncludes userAgent "metamask" then .metamask
      else if strIncludes userAgent "coinbase" then .coinbase
      else .unknown
    hasEthereum := ethereum.isSome || trustwallet
    hasMetaMask := hasMetaMask
    hasCoinbase := hasCoinbase
    hasTrust := hasTrust
    hasTrustWallet := trustwallet }

/-- Modelled from the claim's words (for comparison with the code): a vendor
was identified by (1) explicit provider flags, (2) a co-mounted provider
array match, or (3) a user-agent substring match for any of the three
vendors. -/
def claimVendorIdentified (ethereum : Option EthereumProvider)
    (rawUserAgent : String) : Bool :=
  (match ethereum with
   | some e => e.isMetaMask || e.isTrust || e.isTrustWallet ||
       e.isCoinbaseWallet || e.isCoinbaseBrowser
   | none => false) ||
  (match ethereum with
   | some e => (e.providers.getD []).any (fun p => p.isMetaMask) ||
       (e.providers.getD []).any (fun p => p.isCoinbaseWallet)
   | none => false) ||
  (strIncludes (lowerString rawUserAgent) "metamask" ||
   strIncludes (lowerString rawUserAgent) "trust" ||
   strIncludes (lowerString rawUserAgent) "coinbase")

/-- The vendor-identification signal the code actually feeds into
isInAppBrowser: explicit vendor flags, co-mounted array matches, the
dedicated window.trustwallet object, or the user-agent substring
detection which exists for Trust only. -/
def vendorIdentifiedCode (ethereum : Option EthereumProvider)
    (trustwallet : Bool) (rawUserAgent : String) : Bool :=
  (match ethereum with
   | some e => e.isMetaMask || e.isTrust || e.isTrustWallet ||
       e.isCoinbaseWallet || e.isCoinbaseBrowser
   | none => false) ||
  (match ethereum with
   | some e => (e.providers.getD []).any (fun p => p.isMetaMask) ||
       (e.providers.getD []).any (fun p => p.isCoinbaseWallet)
   | none => false) ||
  trustwallet ||
  strIncludes (lowerString rawUserAgent) "trust"

/-! ## Parameter validation

Two validators exist. The enhanced flow's validatePaymentParameters throws
on a missing required field, a malformed supplied address, or a
non-numeric supplied numeric field; the relaxed validator of the main flow
only requires some payment id. Neither examines the recipient
percentage sum. -/

/-- The URL-derived payment parameter set handed to validation (all raw
strings, with the defaults getValidatedUrlParams already applied). -/
structure RawParams where
  amount : String
  token : String
  contractAddress : String
  tokenContract : String
  chainId : String
  paymentId : String
  splitterPaymentId : String
  recipient1 : String
  recipient2 : String
  recipient3 : String
  recipient1Percentage : String
  recipient2Percentage : String
  recipient3Percentage : String
  tokenDecimals : String
  amountInWei : String
deriving DecidableEq, Repr

/-- JS String.prototype.trim: strip whitespace from both ends. -/
def jsTrim (s : String) : String :=
  String.mk
    (((s.toList.dropWhile fun c => c.isWhitespace).reverse.dropWhile
      fun c => c.isWhitespace).reverse)

/-- A hexadecimal digit as matched by [a-fA-F0-9]. -/
def isHexDigitChar (c : Char) : Bool :=
  c.isDigit || ('a' ≤ c && c ≤ 'f') || ('A' ≤ c && c ≤ 'F')

/-- The address regex of the source: 0x followed by exactly 40 hex chars. -/
def isEthAddress (s : String) : Bool :=
  s.length = 42 && s.toList.take 2 = ['0', 'x'] &&
  (s.toList.drop 2).all isHexDigitChar

/-- Models !isNaN(Number(s)) for the plain decimal literals the URL layer
produces: digits with at most one decimal point and at least one digit. -/
def jsIsNumeric (s : String) : Bool :=
  s.toList.all (fun c => c.isDigit || c = '.') &&
  s.toList.count '.' ≤ 1 &&
  s.toList.any (fun c => c.isDigit)

/-- The required-field list of the enhanced validator, as (name, value). -/
def requiredFields (p : RawParams) : List (String × String) :=
  [("paymentId", p.paymentId), ("contractAddress", p.contractAddress),
   ("tokenContract", p.tokenContract), ("chainId", p.chainId),
   ("amount", p.amount)]

/-- The address-field list of the enhanced validator. -/
def addressFields (p : RawParams) : List (String × String) :=
  [("contractAddress", p.contractAddress), ("tokenContract", p.tokenContract),
   ("recipient1", p.recipient1), ("recipient2", p.recipient2),
   ("recipient3", p.recipient3)]

/-- The numeric-field list of the enhanced validator. -/
def numericFields (p : RawParams) : List (String × String) :=
  [("amount", p.amount), ("chainId", p.chainId),
   ("recipient1Percentage", p.recipient1Percentage),
   ("recipient2Percentage", p.recipient2Percentage),
   ("recipient3Percentage", p.recipient3Percentage),
   ("tokenDecimals", p.tokenDecimals)]

/-- validatePaymentParameters of the enhanced flow: throw (error) on missing
required fields, then on the first malformed supplied address, then on the
first non-numeric supplied numeric field; otherwise return true. -/
def validatePaymentParametersEnhanced (p : RawParams) : Except String Bool :=
  let missing := (requiredFields p).filter (fun f => jsTrim f.2 = "")
  if missing.isEmpty then
    match (addressFields p).findSome? (fun f =>
        if f.2 ≠ "" ∧ isEthAddress f.2 = false then
          some ("Invalid address format for " ++ f.1 ++ ": " ++ f.2)
        else none) with
    | some msg => .error msg
    | none =>
      match (numericFields p).findSome? (fun f =>
          if f.2 ≠ "" ∧ jsIsNumeric f.2 = false then
            some ("Invalid numeric value for " ++ f.1 ++ ": " ++ f.2)
          else none) with
      | some msg => .error msg
      | none => .ok true
  else
    .error ("Missing required parameters: " ++
      String.intercalate ", " (missing.map (fun f => f.1)))

/-- Result object of the relaxed validator of the main flow. -/
structure ValidationResult where
  isValid : Bool
  error : Option String
deriving DecidableEq, Repr

/-- The relaxed validatePaymentParameters of the main flow: only require
paymentId or splitterPaymentId to be present. -/
def validatePaymentParameters (p : RawParams) : ValidationResult :=
  if jsOr p.paymentId p.splitterPaymentId = "" then
    ⟨false, some "Payment ID is required"⟩
  else
    ⟨true, none⟩

/-- initializePayment of the enhanced flow around validation: a validation
throw is caught once (never retried) and sends the flow to the error step,
otherwise the flow proceeds to the connection step. -/
def enhancedInitStep (p : RawParams) : String :=
  match validatePaymentParametersEnhanced p with
  | .ok _ => "connection"
  | .error _ => "error"

/-- All required fields are present (non-blank after trim). -/
def requiredPresent (p : RawParams) : Bool :=
  (requiredFields p).all (fun f => !(jsTrim f.2 = ""))

/-- Every supplied address field matches the 0x + 40 hex format. -/
def addressesWellFormed (p : RawParams) : Bool :=
  (addressFields p).all (fun f => f.2 = "" || isEthAddress f.2)

/-- Every supplied numeric field parses as a number. -/
def numericsWellFormed (p : RawParams) : Bool :=
  (numericFields p).all (fun f => f.2 = "" || jsIsNumeric f.2)

/-! ## Exact decimal amounts (viem parseUnits)

The amount arrives as a decimal string; parseUnits scales it by
10 ^ decimals using exact integer (BigInt) string arithmetic. A decimal
string is modelled structurally as an integer part plus fraction digits. -/

/-- A non-negative decimal literal: integer part and fraction digits. -/
structure Decimal where
  intPart : Nat
  frac : List (Fin 10)
deriving DecidableEq, Repr

/-- Value of a digit list read as an integer (most significant first). -/
def fracVal (ds : List (Fin 10)) : Nat :=
  ds.foldl (fun acc d => acc * 10 + d.val) 0

/-- viem parseUnits: scale a decimal by 10 ^ decimals exactly; when the
fraction is longer than decimals, round half-up on the dropped tail. -/
def parseUnits (d : Decimal) (decimals : Nat) : Nat :=
  if d.frac.length ≤ decimals then
    d.intPart * 10 ^ decimals + fracVal d.frac * 10 ^ (decimals - d.frac.length)
  else
    let kept := d.frac.take decimals
    let rest := d.frac.drop decimals
    d.intPart * 10 ^ decimals + fracVal kept +
      (if 10 ^ rest.length ≤ 2 * fracVal rest then 1 else 0)

/-- Exact rational value of a decimal literal. -/
def decimalToRat (d : Decimal) : ℚ :=
  (d.intPart : ℚ) + (fracVal d.frac : ℚ) / 10 ^ d.frac.length

/-- Rendering of a decimal back to its string form (for error messages). -/
def renderDecimal (d : Decimal) : String :=
  Nat.repr d.intPart ++
    (if d.frac = [] then ""
     else "." ++ String.join (d.frac.map (fun x => Nat.repr x.val)))

/-! ## Transaction orchestrator (executePayment of the enhanced mobile flow)

The payment data record mirrors the fields executePayment reads. Optional
URL strings that JS treats as falsy when empty are modelled as Option
(none = absent or empty) except plain address/id strings, where the empty
string is the falsy case and the jsOr helper applies. -/

/-- A thrown JS error: its message and optional numeric code. -/
structure JsError where
  message : String
  code : Option Int := none
deriving DecidableEq, Repr

/-- The payment data consumed by executePayment. recipientNPercentage is
the raw percentage string (none when empty, so BigInt(x || default)
applies the default); tokenDecimals is the parseInt result (none = NaN);
amountInWei is none when the parameter is absent or the empty string. -/
structure PaymentData where
  amount : Decimal
  token : String
  tokenContract : String
  tokenAddress : String := ""
  contractAddress : String
  chainId : Nat
  paymentId : String
  splitterPaymentId : String
  merchantWallet : String := ""
  coinleyWallet : String := ""
  recipient1 : String
  recipient2 : String
  recipient3 : String
  recipient1Percentage : Option Nat
  recipient2Percentage : Option Nat
  recipient3Percentage : Option Nat
  tokenDecimals : Option Nat
  amountInWei : Option Nat
deriving DecidableEq, Repr

/-- The zero address used as recipient fallback. -/
def zeroAddress : String := "0x0000000000000000000000000000000000000000"

/-- Token decimals used on-chain: parseInt(paymentData.tokenDecimals) || 6.
Both NaN and 0 are falsy in JS, so absent, malformed and zero all
fall back to 6. -/
def effectiveDecimals (tokenDecimals : Option Nat) : Nat :=
  match tokenDecimals with
  | none => 6
  | some n => if n = 0 then 6 else n

/-- The on-chain amount: BigInt(amountInWei) when amountInWei is present
and non-empty, else parseUnits(amount, decimals). -/
def amountInUnits (pd : PaymentData) : Nat :=
  match pd.amountInWei with
  | some w => w
  | none => parseUnits pd.amount (effectiveDecimals pd.tokenDecimals)

/-- The canonical splitPayment call tuple. -/
structure PaymentDetails where
  token : String
  amount : Nat
  paymentId : String
  recipient1 : String
  recipient2 : String
  recipient3 : String
  recipient1Percentage : Nat
  recipient2Percentage : Nat
  recipient3Percentage : Nat
deriving DecidableEq, Repr

/-- Build the splitPayment tuple from the payment data, exactly as
executePayment does (splitterPaymentId first, zero-address and
percentage fallbacks). -/
def buildPaymentDetails (pd : PaymentData) : PaymentDetails :=
  { token := jsOr pd.tokenContract pd.tokenAddress
    amount := amountInUnits pd
    paymentId := jsOr pd.splitterPaymentId pd.paymentId
    recipient1 := jsOr pd.recipient1 (jsOr pd.merchantWallet zeroAddress)
    recipient2 := jsOr pd.recipient2 (jsOr pd.coinleyWallet zeroAddress)
    recipient3 := jsOr pd.recipient3 zeroAddress
    recipient1Percentage := pd.recipient1Percentage.getD 10000
    recipient2Percentage := pd.recipient2Percentage.getD 0
    recipient3Percentage := pd.recipient3Percentage.getD 0 }

/-- A write-transaction call submitted through writeContract. -/
inductive WriteTx where
  | approve (spender : String) (amount : Nat)
  | splitPayment (details : PaymentDetails)
deriving DecidableEq, Repr

/-- A backend notification POST attempt
(paymentId, transactionHash, network, senderAddress). -/
structure NotifyCall where
  paymentId : String
  transactionHash : String
  network : String
  senderAddress : String
deriving DecidableEq, Repr

/-- Outcomes of the external calls executePayment performs, indexed where
retried by the 0-based attempt number (none = the RPC read threw). -/
structure ChainEnv where
  balanceAttempts : Nat → Option Nat
  allowanceAttempts : Nat → Option Nat
  approveOutcome : Except JsError String
  contractInfoOutcome : Except JsError Unit
  simulateOutcome : Except JsError Unit
  executeOutcome : Except JsError String
  notifyOutcome : Except JsError Unit

/-- Terminal step of an orchestration (currentStep after executePayment). -/
inductive FinalStep where
  | success
  | errored (uiMessage : String)
deriving DecidableEq, Repr

/-- Observable trace accumulated during an orchestration. -/
structure Trace where
  writeCalls : List WriteTx := []
  delaysMs : List Nat := []
  txHash : Option String := none
  notifyCalls : List NotifyCall := []
  simCalls : Nat := 0
deriving DecidableEq, Repr

/-- Result of an orchestration: the trace, the raw thrown error message
(as recorded in the debug log) and the terminal step with its surfaced
UI message. -/
structure OrchResult where
  writeCalls : List WriteTx
  delaysMs : List Nat
  txHash : Option String
  notifyCalls : List NotifyCall
  simCalls : Nat
  rawError : Option String
  final : FinalStep
deriving DecidableEq, Repr

/-- getNetworkShortName: chain id to short network name, default ethereum. -/
def getNetworkShortName (chainId : Nat) : String :=
  if chainId = 1 then "ethereum"
  else if chainId = 56 then "bsc"
  else if chainId = 137 then "polygon"
  else if chainId = 42161 then "arbitrum"
  else if chainId = 10 then "optimism"
  else if chainId = 43114 then "avalanche"
  else if chainId = 42220 then "celo"
  else "ethereum"

/-- The catch-block message classification of executePayment: the surfaced
errorMessage derived from the thrown error. -/
def mapErrorMessage (err : JsError) : String :=
  if strIncludes err.message "User rejected" || err.code == some 4001 then
    "Transaction was cancelled by user"
  else if strIncludes err.message "insufficient funds" then
    "Insufficient funds for gas fees"
  else if strIncludes err.message "simulation failed" then
    "Transaction would fail. Please check your balance and try again."
  else if strIncludes err.message "fetch" then
    "Network error: Failed to communicate with backend. Please check your connection."
  else err.message

/-- The insufficient-balance error message thrown by the balance check. -/
def insufficientBalanceMessage (pd : PaymentData) : String :=
  "Insufficient " ++ pd.token ++ " balance. Required: " ++
    renderDecimal pd.amount ++ " " ++ pd.token

/-- Abort the orchestration: the thrown error reaches the outer catch,
which records it and surfaces the classified message in the error step. -/
def failWith (t : Trace) (err : JsError) : OrchResult :=
  { writeCalls := t.writeCalls, delaysMs := t.delaysMs, txHash := t.txHash,
    notifyCalls := t.notifyCalls, simCalls := t.simCalls,
    rawError := some err.message, final := .errored (mapErrorMessage err) }

/-- Notification step: best-effort POST of (paymentId, splitHash, network,
sender); a failure is caught, logged and swallowed, and the flow reaches
the success step either way. -/
def stageNotify (pd : PaymentData) (addr : String) (env : ChainEnv)
    (t : Trace) (splitHash : String) : OrchResult :=
  let t2 := { t with notifyCalls := t.notifyCalls ++
      [NotifyCall.mk pd.paymentId splitHash (getNetworkShortName pd.chainId) addr] }
  match env.notifyOutcome with
  | .ok _ =>
    { writeCalls := t2.writeCalls, delaysMs := t2.delaysMs, txHash := t2.txHash,
      notifyCalls := t2.notifyCalls, simCalls := t2.simCalls,
      rawError := none, final := .success }
  | .error _ =>
    { writeCalls := t2.writeCalls, delaysMs := t2.delaysMs, txHash := t2.txHash,
      notifyCalls := t2.notifyCalls, simCalls := t2.simCalls,
      rawError := none, final := .success }

/-- Execution step: submit the real splitPayment transaction; on success
record its hash and proceed to notification. -/
def stageExecute (pd : PaymentData) (addr : String) (env : ChainEnv)
    (t : Trace) : OrchResult :=
  let t2 := { t with writeCalls := t.writeCalls ++
      [.splitPayment (buildPaymentDetails pd)] }
  match env.executeOutcome with
  | .error e => failWith t2 e
  | .ok splitHash => stageNotify pd addr env { t2 with txHash := some splitHash } splitHash

/-- Simulation step: dry-run splitPayment once; a failure rethrows
"Transaction simulation failed: " plus the underlying message and is
terminal (the execute step is never reached). -/
def stageSimulate (pd : PaymentData) (addr : String) (env : ChainEnv)
    (t : Trace) : OrchResult :=
  let t2 := { t with simCalls := t.simCalls + 1 }
  match env.simulateOutcome with
  | .error simError =>
    failWith t2 ⟨"Transaction simulation failed: " ++ simError.message, none⟩
  | .ok _ => stageExecute pd addr env t2

/-- Contract-metadata step: fetch the splitter ABI for the chain from the
backend; a failure rethrows "Failed to fetch contract ABI: ...". -/
def stageContractInfo (pd : PaymentData) (addr : String) (env : ChainEnv)
    (t : Trace) : OrchResult :=
  match env.contractInfoOutcome with
  | .error abiError =>
    failWith t ⟨"Failed to fetch contract ABI: " ++ abiError.message, none⟩
  | .ok _ => stageSimulate pd addr env t

/-- Conditional approval step: when allowance < required amount, submit
approve(splitter, amount), record its hash and wait the fixed 3000 ms
settle delay; otherwise skip the approval entirely. -/
def stageApprove (pd : PaymentData) (addr : String) (env : ChainEnv)
    (t : Trace) (allowance : Nat) : OrchResult :=
  if allowance < amountInUnits pd then
    let t2 := { t with writeCalls := t.writeCalls ++
        [.approve pd.contractAddress (amountInUnits pd)] }
    match env.approveOutcome with
    | .error e => failWith t2 e
    | .ok approveHash =>
      stageContractInfo pd addr env
        { t2 with txHash := some approveHash, delaysMs := t2.delaysMs ++ [3000] }
  else
    stageContractInfo pd addr env t

/-- Allowance step: read allowance(owner, splitter) with up to 3 attempts
and 1000 ms * attempt backoff; on exhaustion default the value to 0,
which forces the approval path. -/
def stageAllowance (pd : PaymentData) (addr : String) (env : ChainEnv)
    (t : Trace) : OrchResult :=
  let r := retryRead3 env.allowanceAttempts
  stageApprove pd addr env { t with delaysMs := t.delaysMs ++ r.2 } (r.1.getD 0)

/-- Balance step: read balanceOf(address) with up to 3 attempts and
1000 ms * attempt backoff. If a read succeeded and the balance is below
the required amount, throw the insufficient-balance error; after three
failed reads skip local balance validation and continue. -/
def stageBalance (pd : PaymentData) (addr : String) (env : ChainEnv)
    (t : Trace) : OrchResult :=
  let r := retryRead3 env.balanceAttempts
  let t2 := { t with delaysMs := t.delaysMs ++ r.2 }
  match r.1 with
  | some balance =>
    if balance < amountInUnits pd then
      failWith t2 ⟨insufficientBalanceMessage pd, none⟩
    else
      stageAllowance pd addr env t2
  | none => stageAllowance pd addr env t2

/-- executePayment: the full orchestration, steps 1 to 8, starting from an
empty trace. -/
def executePayment (pd : PaymentData) (addr : String) (env : ChainEnv) :
    OrchResult :=
  stageBalance pd addr env {}

/-! ## Concrete instances used by witnesses and counterexamples -/

/-- Payment data matching the spec's worked example: amount 100, six token
decimals, no amountInWei override, percentages 8000/2000/0. -/
def pdExample : PaymentData :=
  { amount := ⟨100, []⟩
    token := "USDC"
    tokenContract := "0x00112233445566778899aabbccddeeff00112233"
    contractAddress := "0xabcdefabcdefabcdefabcdefabcdefabcdefabcd"
    chainId := 137
    paymentId := "pay_42"
    splitterPaymentId := "split_42"
    recipient1 := "0x1111111111111111111111111111111111111111"
    recipient2 := "0x2222222222222222222222222222222222222222"
    recipient3 := zeroAddress
    recipient1Percentage := some 8000
    recipient2Percentage := some 2000
    recipient3Percentage := some 0
    tokenDecimals := some 6
    amountInWei := none }

/-- Payment data with tokenDecimals explicitly 0 and no amountInWei: the
falsy-default `parseInt(tokenDecimals) || 6` replaces 0 by 6. -/
def pdZeroDecimals : PaymentData :=
  { pdExample with amount := ⟨5, []⟩, tokenDecimals := some 0 }

/-- An environment in which every external call succeeds, the balance read
returns 0, and the allowance read returns 0. -/
def envBalanceZero : ChainEnv :=
  { balanceAttempts := fun _ => some 0
    allowanceAttempts := fun _ => some 0
    approveOutcome := .ok "0xapprovehash"
    contractInfoOutcome := .ok ()
    simulateOutcome := .ok ()
    executeOutcome := .ok "0xsplithash"
    notifyOutcome := .ok () }

/-- An environment in which every balance and allowance read throws, and
all later calls succeed. -/
def envReadsFail : ChainEnv :=
  { balanceAttempts := fun _ => none
    allowanceAttempts := fun _ => none
    approveOutcome := .ok "0xapprovehash"
    contractInfoOutcome := .ok ()
    simulateOutcome := .ok ()
    executeOutcome := .ok "0xsplithash"
    notifyOutcome := .ok () }

/-- An environment with ample balance and allowance in which the
splitPayment simulation reverts. -/
def envSimReverts : ChainEnv :=
  { balanceAttempts := fun _ => some 1000000000
    allowanceAttempts := fun _ => some 1000000000
    approveOutcome := .ok "0xapprovehash"
    contractInfoOutcome := .ok ()
    simulateOutcome := .error ⟨"execution reverted: INVALID_SHARES", none⟩
    executeOutcome := .ok "0xsplithash"
    notifyOutcome := .ok () }

/-- An environment in which everything up to execution succeeds and the
backend notification POST fails. -/
def envNotifyFails : ChainEnv :=
  { balanceAttempts := fun _ => some 1000000000
    allowanceAttempts := fun _ => some 1000000000
    approveOutcome := .ok "0xapprovehash"
    contractInfoOutcome := .ok ()
    simulateOutcome := .ok ()
    executeOutcome := .ok "0xsplithash"
    notifyOutcome := .error ⟨"Failed to fetch", none⟩ }

/-- Connection outcomes where every connect() call fails the same way. -/
def alwaysFailingOutcome : Nat → Option String :=
  fun _ => some "Connector not found"

/-- A fully well-formed parameter set whose recipient percentages sum to
5000 basis points, not 10000. -/
def paramsBadSum : RawParams :=
  { amount := "100"
    token := "USDC"
    contractAddress := "0xabcdefabcdefabcdefabcdefabcdefabcdefabcd"
    tokenContract := "0x00112233445566778899aabbccddeeff00112233"
    chainId := "1"
    paymentId := "pay_42"
    splitterPaymentId := "split_42"
    recipient1 := "0x1111111111111111111111111111111111111111"
    recipient2 := "0x2222222222222222222222222222222222222222"
    recipient3 := "0x0000000000000000000000000000000000000000"
    recipient1Percentage := "5000"
    recipient2Percentage := "0"
    recipient3Percentage := "0"
    tokenDecimals := "6"
    amountInWei := "" }

/-- A provider object with no vendor flags and no providers array. -/
def plainProvider : EthereumProvider := {}

/-- A user agent identifying MetaMask by substring. -/
def metamaskUserAgent : String := "Mozilla MetaMask Mobile"

/-! ## Helper lemmas -/

/-- slice(-50) keeps min(length, 50) elements. -/
theorem sliceLast50_length (l : List α) :
    (sliceLast50 l).length = min l.length 50 := by
  simp [sliceLast50]
  omega

/-- slice(-50) returns a suffix of its input. -/
theorem sliceLast50_suffix (l : List α) : sliceLast50 l <:+ l :=
  List.drop_suffix _ _

/-! ## Claim theorems -/

/-- C10: after every call to addDebugLog the debug log buffer contains at
most 50 entries, and it is exactly the suffix of the appended history of
length min(previous + 1, 50) — i.e. only the most recently appended
entries — in both the component-local and the store-based logger. -/
theorem claim_C10_debug_log_bound (prev : List DebugLogEntry)
    (entry : DebugLogEntry) (logs : List StoreLogEntry)
    (entry2 : StoreLogEntry) :
    (addDebugLog prev entry).length ≤ 50 ∧
    addDebugLog prev entry <:+ prev ++ [entry] ∧
    (addDebugLog prev entry).length = min (prev.length + 1) 50 ∧
    (storeAddDebugLog logs entry2).length ≤ 50 ∧
    storeAddDebugLog logs entry2 <:+ logs ++ [entry2] ∧
    (storeAddDebugLog logs entry2).length = min (logs.length + 1) 50 := by
  have h1 := sliceLast50_length (prev ++ [entry])
  have h2 := sliceLast50_length (logs ++ [entry2])
  simp only [List.length_append, List.length_cons, List.length_nil] at h1 h2
  refine ⟨?_, sliceLast50_suffix _, ?_, ?_, sliceLast50_suffix _, ?_⟩ <;>
    simp only [addDebugLog, storeAddDebugLog, h1, h2] <;> omega

/-- C6 (counterexample): on the auto-connect chain (frozen counter 0) a
user-rejection failure is retried, not terminal; and with every attempt
failing, the chain has made 3 calls with no connection error surfaced and
a retry still pending — a 4th call follows — refuting both the claimed
stop after exactly 3 failures with a surfaced ConnectionError and the
claimed user-rejection short-circuit. -/
theorem claim_C6_counterexample :
    connectCall 0 (some "User rejected the request.") = .retryScheduled ∧
    strIncludes "User rejected the request." "User rejected" = true ∧
    (connectChain 0 alwaysFailingOutcome 3).callsMade = 3 ∧
    (connectChain 0 alwaysFailingOutcome 3).status = .retryPending ∧
    (connectChain 0 alwaysFailingOutcome 4).callsMade = 4 ∧
    (connectChain 0 alwaysFailingOutcome 4).status = .retryPending := by
  decide

/-- C6 (amended): the catch block's retry check reads the
connectionAttempts value frozen into the invoking closure, and the
setTimeout retry re-invokes that same closure, so along the automatic
chain (frozen value 0) every failure — a user rejection included — is
retried indefinitely: after any number n of failed calls the live attempt
counter has reached n yet the chain is still retrying, and the
'Connection failed' error is surfaced only by a closure instance whose
frozen counter is at least 2, never by the auto-connect chain. -/
theorem claim_C6_stale_closure_retry (outcome : Nat → Option String)
    (hfail : ∀ i, (outcome i).isSome = true) :
    (∀ n, (connectChain 0 outcome n).callsMade = n ∧
          (connectChain 0 outcome n).stateCounter = n ∧
          (connectChain 0 outcome n).status = .retryPending) ∧
    (∀ m, connectCall 0 (some m) = .retryScheduled) ∧
    (∀ frozen m, connectCall frozen (some m)
        = .errorSurfaced ("Connection failed: " ++ m) ↔ 2 ≤ frozen) := by
  refine ⟨?_, ?_, ?_⟩
  · intro n
    induction n with
    | zero => exact ⟨rfl, rfl, rfl⟩
    | succ k ih =>
      obtain ⟨hc, hs, hst⟩ := ih
      obtain ⟨m, hm⟩ := Option.isSome_iff_exists.mp (hfail k)
      refine ⟨?_, ?_, ?_⟩ <;>
        simp [connectChain, connectCall, hst, hc, hs, hm]
  · intro m
    simp [connectCall]
  · intro frozen m
    constructor
    · intro h
      by_contra hge
      push_neg at hge
      simp [connectCall, hge] at h
    · intro h
      have hnlt : ¬ frozen < 2 := by omega
      simp [connectCall, hnlt]

/-- C6 (witness): with every connect() call failing, after 5 invocations
of the auto-connect chain the loop has made 5 attempts and is still
retrying, and a user-rejection failure is re-scheduled like any other. -/
theorem claim_C6_stale_closure_retry_witness :
    (connectChain 0 alwaysFailingOutcome 5).callsMade = 5 ∧
    (connectChain 0 alwaysFailingOutcome 5).status = .retryPending ∧
    connectCall 0 (some "User rejected the request.") = .retryScheduled := by
  have h := claim_C6_stale_closure_retry alwaysFailingOutcome (fun i => rfl)
  exact ⟨(h.1 5).1, (h.1 5).2.2, h.2.1 "User rejected the request."⟩

/-- A guarded findSome? over field lists returns none exactly when every
supplied field passes its well-formedness check. -/
theorem guard_findSome_none_iff (l : List (String × String))
    (bad : String → Bool) (pre mid : String) :
    (l.findSome? fun f =>
        if f.2 ≠ "" ∧ bad f.2 = false then some (pre ++ f.1 ++ mid ++ f.2)
        else none) = none
      ↔ (l.all fun f => f.2 = "" || bad f.2) = true := by
  rw [List.findSome?_eq_none_iff, List.all_eq_true]
  constructor
  · intro h f hf
    have hv := h f hf
    simp only [Bool.or_eq_true, decide_eq_true_eq]
    by_cases h1 : f.2 = ""
    · exact Or.inl h1
    · by_cases h2 : bad f.2
      · exact Or.inr h2
      · rw [if_pos ⟨h1, by simp [h2]⟩] at hv
        exact absurd hv (by simp)
  · intro h f hf
    have := h f hf
    simp only [Bool.or_eq_true, decide_eq_true_eq] at this
    rcases this with h1 | h1
    · simp [h1]
    · simp [h1]

/-- C5 (counterexample): a fully well-formed parameter set whose recipient
percentages sum to 5000 basis points (not 10000) passes both validators,
and the flow proceeds to the connection step instead of the error state:
the percentage-sum condition is not validated. -/
theorem claim_C5_counterexample :
    validatePaymentParametersEnhanced paramsBadSum = .ok true ∧
    enhancedInitStep paramsBadSum = "connection" ∧
    (validatePaymentParameters paramsBadSum).isValid = true ∧
    paramsBadSum.recipient1Percentage = "5000" ∧
    paramsBadSum.recipient2Percentage = "0" ∧
    paramsBadSum.recipient3Percentage = "0" ∧
    5000 + 0 + 0 ≠ 10000 := by
  refine ⟨rfl, by decide, by decide, rfl, rfl, rfl, by decide⟩

/-- C5 (amended): the enhanced flow's validation fails fatally and
immediately — the initialization catch routes the throw to the error step,
with no retry — exactly when a required PaymentIntent field is missing or
a supplied address or numeric field is malformed; the recipient
percentage sum is never examined. -/
theorem claim_C5_validation_characterization (p : RawParams) :
    enhancedInitStep p =
      (if requiredPresent p && addressesWellFormed p && numericsWellFormed p
       then "connection" else "error") := by
  unfold enhancedInitStep validatePaymentParametersEnhanced
  by_cases hreq : requiredPresent p
  · have hfil : ((requiredFields p).filter fun f => jsTrim f.2 = "") = [] := by
      rw [List.filter_eq_nil_iff]
      intro f hf
      have := List.all_eq_true.mp hreq f hf
      simpa using this
    rw [hfil]
    by_cases haddr : addressesWellFormed p
    · have hfa := (guard_findSome_none_iff (addressFields p) isEthAddress
        "Invalid address format for " ": ").mpr haddr
      rw [hfa]
      by_cases hnum : numericsWellFormed p
      · have hfn := (guard_findSome_none_iff (numericFields p) jsIsNumeric
          "Invalid numeric value for " ": ").mpr hnum
        rw [hfn]
        simp [hreq, haddr, hnum]
      · rcases hf : ((numericFields p).findSome? fun f =>
            if f.2 ≠ "" ∧ jsIsNumeric f.2 = false then
              some ("Invalid numeric value for " ++ f.1 ++ ": " ++ f.2)
            else none) with _ | msg
        · exact absurd ((guard_findSome_none_iff (numericFields p) jsIsNumeric
            "Invalid numeric value for " ": ").mp hf) hnum
        · rw [hf]
          simp [hnum]
    · rcases hf : ((addressFields p).findSome? fun f =>
          if f.2 ≠ "" ∧ isEthAddress f.2 = false then
            some ("Invalid address format for " ++ f.1 ++ ": " ++ f.2)
          else none) with _ | msg
      · exact absurd ((guard_findSome_none_iff (addressFields p) isEthAddress
          "Invalid address format for " ": ").mp hf) haddr
      · rw [hf]
        simp [haddr]
  · have hne : ((requiredFields p).filter fun f => jsTrim f.2 = "") ≠ [] := by
      intro hnil
      apply hreq
      rw [show requiredPresent p
            = (requiredFields p).all fun f => !(jsTrim f.2 = "") from rfl,
        List.all_eq_true]
      intro f hf
      have := List.filter_eq_nil_iff.mp hnil f hf
      simpa using this
    rcases hc : (requiredFields p).filter (fun f => jsTrim f.2 = "") with _ | ⟨x, xs⟩
    · exact absurd hc hne
    · rw [hc]
      simp [hreq]

/-- C8 (counterexample): with a flagless provider present and a user agent
containing "metamask", the classifier identifies the vendor from the user
agent (walletType = metamask) — mechanism (3) of the claim — yet
isInAppBrowser is false, refuting the claimed if-and-only-if. -/
theorem claim_C8_counterexample :
    (some plainProvider : Option EthereumProvider).isSome = true ∧
    claimVendorIdentified (some plainProvider) metamaskUserAgent = true ∧
    (detectWalletEnvironment (some plainProvider) false
      metamaskUserAgent).walletType = .metamask ∧
    (detectWalletEnvironment (some plainProvider) false
      metamaskUserAgent).isInAppBrowser = false := by
  refine ⟨rfl, by decide, by decide, by decide⟩

/-- C8 (amended): the classifier is a pure function of the provider
object, the trustwallet global and the user agent (no URL hint is
consulted), and isInAppBrowser is true iff a provider exists and a vendor
signal is present — an explicit provider flag, a co-mounted provider
array match, the dedicated window.trustwallet object, or (for Trust only)
the user-agent substring; MetaMask/Coinbase user-agent matches influence
only walletType. -/
theorem claim_C8_in_app_browser_iff (ethereum : Option EthereumProvider)
    (trustwallet : Bool) (rawUserAgent : String) :
    (detectWalletEnvironment ethereum trustwallet rawUserAgent).isInAppBrowser
      = ((ethereum.isSome || trustwallet) &&
         vendorIdentifiedCode ethereum trustwallet rawUserAgent) := by
  cases ethereum <;>
    · rw [Bool.eq_iff_iff]
      simp only [detectWalletEnvironment, vendorIdentifiedCode,
        Option.isSome_some, Option.isSome_none, List.any_nil,
        Bool.false_or, Bool.true_or, Bool.or_false, Bool.false_and,
        Bool.true_and, Bool.and_false, Bool.or_eq_true, Bool.and_eq_true]
      try tauto

/-- parseUnits is exact when the fraction fits in the decimals: its value
as a rational equals the decimal value scaled by 10 ^ decimals. -/
theorem parseUnits_exact (d : Decimal) (decimals : Nat)
    (h : d.frac.length ≤ decimals) :
    (parseUnits d decimals : ℚ) = decimalToRat d * 10 ^ decimals := by
  unfold parseUnits decimalToRat
  rw [if_pos h]
  have hten : (10 : ℚ) ^ d.frac.length ≠ 0 := by positivity
  have hsplit : (10 : ℚ) ^ (decimals - d.frac.length) * 10 ^ d.frac.length
      = 10 ^ decimals := by
    rw [← pow_add]
    congr 1
    omega
  push_cast
  field_simp
  calc ((d.intPart : ℚ) * 10 ^ decimals +
          (fracVal d.frac : ℚ) * 10 ^ (decimals - d.frac.length))
        * 10 ^ d.frac.length
      = (d.intPart : ℚ) * 10 ^ decimals * 10 ^ d.frac.length +
          (fracVal d.frac : ℚ)
            * (10 ^ (decimals - d.frac.length) * 10 ^ d.frac.length) := by
        ring
    _ = _ := by
        rw [hsplit]
        ring

/-- C1 (counterexample): with tokenDecimals present and equal to 0 and no
amountInWei, the claim's amount (amountDecimal scaled by 10 ^ 0 = 5)
differs from the built tuple's amount: `parseInt(tokenDecimals) || 6`
treats the present value 0 as falsy and scales by 10 ^ 6 instead. -/
theorem claim_C1_counterexample :
    pdZeroDecimals.tokenDecimals = some 0 ∧
    pdZeroDecimals.amountInWei = none ∧
    decimalToRat pdZeroDecimals.amount * 10 ^ (pdZeroDecimals.tokenDecimals.getD 6)
      = 5 ∧
    (buildPaymentDetails pdZeroDecimals).amount = 5000000 ∧
    ((buildPaymentDetails pdZeroDecimals).amount : ℚ)
      ≠ decimalToRat pdZeroDecimals.amount
          * 10 ^ (pdZeroDecimals.tokenDecimals.getD 6) := by
  refine ⟨rfl, rfl, ?_, rfl, ?_⟩
  · norm_num [pdZeroDecimals, pdExample, decimalToRat, fracVal]
  · norm_num [pdZeroDecimals, pdExample, decimalToRat, fracVal,
      buildPaymentDetails, amountInUnits, parseUnits, effectiveDecimals]

/-- C1 (amended): the built call tuple's amount equals BigInt(amountInWei)
when amountInWei is present and non-empty; otherwise it equals
amountDecimal scaled exactly (no floating point) by 10 ^ d where d is
parseInt(tokenDecimals) when that is a nonzero number and 6 when
tokenDecimals is absent, malformed, or zero. -/
theorem claim_C1_amount_exact (pd : PaymentData) :
    (∀ w, pd.amountInWei = some w → (buildPaymentDetails pd).amount = w) ∧
    (pd.amountInWei = none →
      pd.amount.frac.length ≤ effectiveDecimals pd.tokenDecimals →
      ((buildPaymentDetails pd).amount : ℚ)
        = decimalToRat pd.amount * 10 ^ effectiveDecimals pd.tokenDecimals) := by
  constructor
  · intro w hw
    simp [buildPaymentDetails, amountInUnits, hw]
  · intro hw hlen
    simp only [buildPaymentDetails, amountInUnits, hw]
    exact parseUnits_exact pd.amount _ hlen

/-- C1 (witness): the spec's worked example — amountDecimal 100, six token
decimals, no amountInWei — yields tuple amount 100000000 exactly. -/
theorem claim_C1_amount_exact_witness :
    ((buildPaymentDetails pdExample).amount : ℚ)
      = decimalToRat pdExample.amount * 10 ^ effectiveDecimals pdExample.tokenDecimals ∧
    (buildPaymentDetails pdExample).amount = 100000000 :=
  ⟨(claim_C1_amount_exact pdExample).2 rfl (by decide), by decide⟩

/-- The notification stage always appends exactly one notification attempt
carrying the plain paymentId and ends in success. -/
theorem aux_stageNotify_eq (pd : PaymentData) (addr : String) (env : ChainEnv)
    (t : Trace) (h : String) :
    stageNotify pd addr env t h =
      { writeCalls := t.writeCalls, delaysMs := t.delaysMs, txHash := t.txHash,
        notifyCalls := t.notifyCalls ++
          [NotifyCall.mk pd.paymentId h (getNetworkShortName pd.chainId) addr],
        simCalls := t.simCalls, rawError := none, final := .success } := by
  cases hout : env.notifyOutcome <;> simp [stageNotify, hout]

/-- Write calls only grow across the contract-info, simulation, execution
and notification stages. -/
theorem aux_stageContractInfo_writes (pd : PaymentData) (addr : String)
    (env : ChainEnv) (t : Trace) :
    ∃ l, (stageContractInfo pd addr env t).writeCalls = t.writeCalls ++ l := by
  unfold stageContractInfo stageSimulate stageExecute
  cases habi : env.contractInfoOutcome with
  | error e => exact ⟨[], by simp [failWith]⟩
  | ok u =>
    cases hsim : env.simulateOutcome with
    | error e => exact ⟨[], by simp [failWith]⟩
    | ok u2 =>
      cases hexec : env.executeOutcome with
      | error e => exact ⟨[.splitPayment (buildPaymentDetails pd)], by simp [failWith]⟩
      | ok h =>
        refine ⟨[.splitPayment (buildPaymentDetails pd)], ?_⟩
        simp [aux_stageNotify_eq]

/-- C2: when a balance read succeeds and the returned balance is below the
required amount, the orchestrator throws the insufficient-balance error,
ends in the error state with that cause, and issues no write transaction
(neither approve nor splitPayment) and no notification. -/
theorem claim_C2_insufficient_balance (pd : PaymentData) (addr : String)
    (env : ChainEnv) (b : Nat)
    (hread : (retryRead3 env.balanceAttempts).1 = some b)
    (hlt : b < amountInUnits pd) :
    (executePayment pd addr env).rawError = some (insufficientBalanceMessage pd) ∧
    (executePayment pd addr env).final
      = .errored (mapErrorMessage ⟨insufficientBalanceMessage pd, none⟩) ∧
    (executePayment pd addr env).writeCalls = [] ∧
    (executePayment pd addr env).notifyCalls = [] := by
  simp only [executePayment, stageBalance, hread]
  rw [if_pos hlt]
  simp [failWith]

/-- C2 (witness): a successful zero-balance read against a 100 USDC
requirement aborts with the insufficient-balance cause and no writes. -/
theorem claim_C2_insufficient_balance_witness :
    (executePayment pdExample "0xsender" envBalanceZero).rawError
      = some (insufficientBalanceMessage pdExample) ∧
    (executePayment pdExample "0xsender" envBalanceZero).writeCalls = [] := by
  have h := claim_C2_insufficient_balance pdExample "0xsender" envBalanceZero 0
    rfl (by decide)
  exact ⟨h.1, h.2.2.1⟩

/-- C7: when all three allowance reads throw, the loop has waited the
1000 ms and 2000 ms backoff delays, the allowance defaults to zero, and
the flow proceeds into the approval path — the first write call is an
approve for the full required amount — instead of failing. -/
theorem claim_C7_allowance_exhaustion (pd : PaymentData) (addr : String)
    (env : ChainEnv)
    (hbal : ∀ b, (retryRead3 env.balanceAttempts).1 = some b → amountInUnits pd ≤ b)
    (hallow : ∀ i, i < 3 → env.allowanceAttempts i = none)
    (hamt : 0 < amountInUnits pd) :
    retryRead3 env.allowanceAttempts = (none, [1000, 2000]) ∧
    (executePayment pd addr env).writeCalls.head?
      = some (.approve pd.contractAddress (amountInUnits pd)) := by
  have hr : retryRead3 env.allowanceAttempts = (none, [1000, 2000]) := by
    unfold retryRead3
    rw [hallow 0 (by omega), hallow 1 (by omega), hallow 2 (by omega)]
  refine ⟨hr, ?_⟩
  have hcont : ∀ t : Trace, t.writeCalls = [] →
      (stageAllowance pd addr env t).writeCalls.head?
        = some (.approve pd.contractAddress (amountInUnits pd)) := by
    intro t ht
    simp only [stageAllowance, hr, Option.getD_none]
    unfold stageApprove
    rw [if_pos hamt]
    cases hap : env.approveOutcome with
    | error e => simp [failWith, ht]
    | ok h =>
      obtain ⟨l, hl⟩ := aux_stageContractInfo_writes pd addr env
        { t with
            writeCalls := t.writeCalls ++ [.approve pd.contractAddress (amountInUnits pd)],
            txHash := some h,
            delaysMs := (t.delaysMs ++ [1000, 2000]) ++ [3000] }
      simp only [hap]
      rw [hl]
      simp [ht]
  cases hb : (retryRead3 env.balanceAttempts).1 with
  | none =>
    simp only [executePayment, stageBalance, hb]
    exact hcont _ rfl
  | some b =>
    have hge : ¬ (b < amountInUnits pd) := not_lt.mpr (hbal b hb)
    simp only [executePayment, stageBalance, hb]
    rw [if_neg hge]
    exact hcont _ rfl

/-- C7 (witness): with every balance and allowance read failing and a
positive required amount, the approve write for the full amount is the
first write call. -/
theorem claim_C7_allowance_exhaustion_witness :
    retryRead3 envReadsFail.allowanceAttempts = (none, [1000, 2000]) ∧
    (executePayment pdExample "0xsender" envReadsFail).writeCalls.head?
      = some (.approve pdExample.contractAddress (amountInUnits pdExample)) :=
  claim_C7_allowance_exhaustion pdExample "0xsender" envReadsFail
    (fun b h => by simp [envReadsFail, retryRead3] at h)
    (fun i _ => rfl) (by decide)

/-- From the allowance step on, when any needed approval succeeds, the
contract metadata fetch succeeds and the simulation throws, the attempt
ends with exactly one simulation call, no splitPayment write, the revert
reason preserved in the thrown error, and no notification. -/
theorem aux_allowance_sim_error (pd : PaymentData) (addr : String)
    (env : ChainEnv) (e : JsError) (t : Trace)
    (hap : (retryRead3 env.allowanceAttempts).1.getD 0 < amountInUnits pd →
      ∃ h, env.approveOutcome = .ok h)
    (habi : env.contractInfoOutcome = .ok ())
    (hsim : env.simulateOutcome = .error e)
    (ht0 : t.simCalls = 0) (htw : t.writeCalls = [])
    (htn : t.notifyCalls = []) :
    (stageAllowance pd addr env t).simCalls = 1 ∧
    (∀ w ∈ (stageAllowance pd addr env t).writeCalls,
      ∀ d, w ≠ .splitPayment d) ∧
    (stageAllowance pd addr env t).rawError
      = some ("Transaction simulation failed: " ++ e.message) ∧
    (stageAllowance pd addr env t).final
      = .errored (mapErrorMessage
          ⟨"Transaction simulation failed: " ++ e.message, none⟩) ∧
    (stageAllowance pd addr env t).notifyCalls = [] := by
  unfold stageAllowance stageApprove
  by_cases hc : (retryRead3 env.allowanceAttempts).1.getD 0 < amountInUnits pd
  · obtain ⟨h, hok⟩ := hap hc
    rw [if_pos hc]
    simp only [hok, stageContractInfo, habi, stageSimulate, hsim]
    simp [failWith, ht0, htw, htn]
  · rw [if_neg hc]
    simp only [stageContractInfo, habi, stageSimulate, hsim]
    simp [failWith, ht0, htw, htn]

/-- C3 (amended): when the splitPayment simulation throws, the execute step
is never invoked (no splitPayment write call is made), the failure is
terminal for the attempt with no simulation retry (exactly one simulation
call), and the revert reason is preserved in the thrown error and debug
log — while the user-surfaced error state carries the classified generic
message produced by the catch block, not the revert reason. -/
theorem claim_C3_simulation_failure (pd : PaymentData) (addr : String)
    (env : ChainEnv) (e : JsError)
    (hbal : ∀ b, (retryRead3 env.balanceAttempts).1 = some b → amountInUnits pd ≤ b)
    (hap : (retryRead3 env.allowanceAttempts).1.getD 0 < amountInUnits pd →
      ∃ h, env.approveOutcome = .ok h)
    (habi : env.contractInfoOutcome = .ok ())
    (hsim : env.simulateOutcome = .error e) :
    (executePayment pd addr env).simCalls = 1 ∧
    (∀ w ∈ (executePayment pd addr env).writeCalls, ∀ d, w ≠ .splitPayment d) ∧
    (executePayment pd addr env).rawError
      = some ("Transaction simulation failed: " ++ e.message) ∧
    (executePayment pd addr env).final
      = .errored (mapErrorMessage
          ⟨"Transaction simulation failed: " ++ e.message, none⟩) ∧
    (executePayment pd addr env).notifyCalls = [] := by
  cases hb : (retryRead3 env.balanceAttempts).1 with
  | none =>
    simp only [executePayment, stageBalance, hb]
    exact aux_allowance_sim_error pd addr env e _ hap habi hsim rfl rfl rfl
  | some b =>
    have hge : ¬ (b < amountInUnits pd) := not_lt.mpr (hbal b hb)
    simp only [executePayment, stageBalance, hb]
    rw [if_neg hge]
    exact aux_allowance_sim_error pd addr env e _ hap habi hsim rfl rfl rfl

set_option maxRecDepth 8000 in
/-- C3 (counterexample): at a concrete reverting simulation the attempt is
terminal and execute is never called, but the surfaced error state shows
the generic message, which does not contain the revert reason — the
reason survives only in the thrown error and debug log, refuting the
claim that it is preserved in the surfaced error. -/
theorem claim_C3_counterexample :
    (executePayment pdExample "0xsender" envSimReverts).rawError
      = some "Transaction simulation failed: execution reverted: INVALID_SHARES" ∧
    (executePayment pdExample "0xsender" envSimReverts).final
      = .errored "Transaction would fail. Please check your balance and try again." ∧
    strIncludes "Transaction would fail. Please check your balance and try again."
      "INVALID_SHARES" = false := by
  have hrun : executePayment pdExample "0xsender" envSimReverts
      = stageAllowance pdExample "0xsender" envSimReverts
          { delaysMs := [] } := by
    simp [executePayment, stageBalance, envSimReverts, retryRead3, pdExample,
      amountInUnits, parseUnits, effectiveDecimals, fracVal]
  rw [hrun]
  have hstage : stageAllowance pdExample "0xsender" envSimReverts
      { delaysMs := [] }
      = failWith { delaysMs := [], simCalls := 1 }
          ⟨"Transaction simulation failed: execution reverted: INVALID_SHARES",
            none⟩ := by
    simp [stageAllowance, stageApprove, stageContractInfo, stageSimulate,
      envSimReverts, retryRead3, pdExample, amountInUnits, parseUnits,
      effectiveDecimals, fracVal]
  rw [hstage]
  refine ⟨rfl, ?_, by decide⟩
  show FinalStep.errored (mapErrorMessage _) = _
  rw [show mapErrorMessage
      ⟨"Transaction simulation failed: execution reverted: INVALID_SHARES", none⟩
      = "Transaction would fail. Please check your balance and try again." from
    by decide]

/-- C3 (witness): a concrete reverting simulation makes exactly one
simulation call, no splitPayment write, and no notification. -/
theorem claim_C3_simulation_failure_witness :
    (executePayment pdExample "0xwit3" envSimReverts).simCalls = 1 ∧
    (∀ w ∈ (executePayment pdExample "0xwit3" envSimReverts).writeCalls,
      ∀ d, w ≠ .splitPayment d) ∧
    (executePayment pdExample "0xwit3" envSimReverts).notifyCalls = [] := by
  have h := claim_C3_simulation_failure pdExample "0xwit3" envSimReverts
    ⟨"execution reverted: INVALID_SHARES", none⟩
    (fun b hb => by
      simp [envSimReverts, retryRead3] at hb
      subst hb
      decide)
    (fun hc => ⟨"0xapprovehash", rfl⟩)
    rfl rfl
  exact ⟨h.1, h.2.1, h.2.2.2.2⟩

/-- C4: once the splitPayment transaction has been submitted (execution
returned a hash), a failing backend notification POST is swallowed: the
notification is attempted with the plain paymentId and the orchestrator
still terminates in the success state with the transaction hash kept. -/
theorem claim_C4_notify_failure_success (pd : PaymentData) (addr : String)
    (env : ChainEnv) (splitHash : String) (e : JsError)
    (hbal : ∀ b, (retryRead3 env.balanceAttempts).1 = some b → amountInUnits pd ≤ b)
    (hap : (retryRead3 env.allowanceAttempts).1.getD 0 < amountInUnits pd →
      ∃ h, env.approveOutcome = .ok h)
    (habi : env.contractInfoOutcome = .ok ())
    (hsim : env.simulateOutcome = .ok ())
    (hexec : env.executeOutcome = .ok splitHash)
    (_hnot : env.notifyOutcome = .error e) :
    (executePayment pd addr env).final = .success ∧
    (executePayment pd addr env).notifyCalls
      = [NotifyCall.mk pd.paymentId splitHash
          (getNetworkShortName pd.chainId) addr] ∧
    (executePayment pd addr env).txHash = some splitHash := by
  have hcont : ∀ t : Trace, t.notifyCalls = [] →
      (stageAllowance pd addr env t).final = .success ∧
      (stageAllowance pd addr env t).notifyCalls
        = [NotifyCall.mk pd.paymentId splitHash
            (getNetworkShortName pd.chainId) addr] ∧
      (stageAllowance pd addr env t).txHash = some splitHash := by
    intro t htn
    unfold stageAllowance stageApprove
    by_cases hc : (retryRead3 env.allowanceAttempts).1.getD 0 < amountInUnits pd
    · obtain ⟨h, hok⟩ := hap hc
      rw [if_pos hc]
      simp only [hok, stageContractInfo, habi, stageSimulate, hsim,
        stageExecute, hexec]
      simp [aux_stageNotify_eq, htn]
    · rw [if_neg hc]
      simp only [stageContractInfo, habi, stageSimulate, hsim,
        stageExecute, hexec]
      simp [aux_stageNotify_eq, htn]
  cases hb : (retryRead3 env.balanceAttempts).1 with
  | none =>
    simp only [executePayment, stageBalance, hb]
    exact hcont _ rfl
  | some b =>
    have hge : ¬ (b < amountInUnits pd) := not_lt.mpr (hbal b hb)
    simp only [executePayment, stageBalance, hb]
    rw [if_neg hge]
    exact hcont _ rfl

/-- C4 (witness): with ample balance, execution succeeding and the backend
notification failing, the orchestration still terminates in success. -/
theorem claim_C4_notify_failure_success_witness :
    (executePayment pdExample "0xwit4" envNotifyFails).final = .success ∧
    (executePayment pdExample "0xwit4" envNotifyFails).notifyCalls
      = [NotifyCall.mk pdExample.paymentId "0xsplithash"
          (getNetworkShortName pdExample.chainId) "0xwit4"] := by
  have h := claim_C4_notify_failure_success pdExample "0xwit4" envNotifyFails
    "0xsplithash" ⟨"Failed to fetch", none⟩
    (fun b hb => by
      simp [envNotifyFails, retryRead3] at hb
      subst hb
      decide)
    (fun hc => ⟨"0xapprovehash", rfl⟩)
    rfl rfl rfl rfl
  exact ⟨h.1, h.2.1⟩

/-- Every notification the orchestrator can emit carries the plain
paymentId of the payment data and the connected sender address. -/
theorem aux_notify_shape (pd : PaymentData) (addr : String) (env : ChainEnv) :
    (executePayment pd addr env).notifyCalls = [] ∨
    ∃ h, (executePayment pd addr env).notifyCalls
      = [NotifyCall.mk pd.paymentId h (getNetworkShortName pd.chainId) addr] := by
  have hstage : ∀ t : Trace, t.notifyCalls = [] →
      (stageAllowance pd addr env t).notifyCalls = [] ∨
      ∃ h, (stageAllowance pd addr env t).notifyCalls
        = [NotifyCall.mk pd.paymentId h (getNetworkShortName pd.chainId) addr] := by
    intro t htn
    have hinfo : ∀ t2 : Trace, t2.notifyCalls = [] →
        (stageContractInfo pd addr env t2).notifyCalls = [] ∨
        ∃ h, (stageContractInfo pd addr env t2).notifyCalls
          = [NotifyCall.mk pd.paymentId h (getNetworkShortName pd.chainId) addr] := by
      intro t2 htn2
      unfold stageContractInfo stageSimulate stageExecute
      cases habi : env.contractInfoOutcome with
      | error e => exact Or.inl (by simp [failWith, htn2])
      | ok u =>
        cases hsim : env.simulateOutcome with
        | error e => exact Or.inl (by simp [failWith, htn2])
        | ok u2 =>
          cases hexec : env.executeOutcome with
          | error e => exact Or.inl (by simp [failWith, htn2])
          | ok h => exact Or.inr ⟨h, by simp [aux_stageNotify_eq, htn2]⟩
    unfold stageAllowance stageApprove
    by_cases hc : (retryRead3 env.allowanceAttempts).1.getD 0 < amountInUnits pd
    · rw [if_pos hc]
      cases hok : env.approveOutcome with
      | error e => exact Or.inl (by simp [failWith, htn])
      | ok hsh => exact hinfo _ (by simp [htn])
    · rw [if_neg hc]
      exact hinfo _ (by simp [htn])
  cases hb : (retryRead3 env.balanceAttempts).1 with
  | none =>
    simp only [executePayment, stageBalance, hb]
    exact hstage _ rfl
  | some b =>
    by_cases hlt : b < amountInUnits pd
    · simp only [executePayment, stageBalance, hb]
      rw [if_pos hlt]
      exact Or.inl (by simp [failWith])
    · simp only [executePayment, stageBalance, hb]
      rw [if_neg hlt]
      exact hstage _ rfl

/-- C9: when both splitterPaymentId and paymentId are present and
non-empty, the on-chain splitPayment tuple carries splitterPaymentId
(it takes precedence), while every backend notification POST the
orchestrator can emit carries the plain paymentId — so when the two ids
differ, the identifier sent on-chain differs from the one reported. -/
theorem claim_C9_payment_id_precedence (pd : PaymentData)
    (h1 : pd.splitterPaymentId ≠ "") (h2 : pd.paymentId ≠ "") :
    (buildPaymentDetails pd).paymentId = pd.splitterPaymentId ∧
    (∀ addr env c, c ∈ (executePayment pd addr env).notifyCalls →
      c.paymentId = pd.paymentId) ∧
    (pd.splitterPaymentId ≠ pd.paymentId →
      (buildPaymentDetails pd).paymentId ≠ pd.paymentId) := by
  have htuple : (buildPaymentDetails pd).paymentId = pd.splitterPaymentId := by
    simp [buildPaymentDetails, jsOr, h1]
  refine ⟨htuple, ?_, ?_⟩
  · intro addr env c hc
    rcases aux_notify_shape pd addr env with hn | ⟨h, hn⟩
    · rw [hn] at hc
      exact absurd hc (List.not_mem_nil c)
    · rw [hn] at hc
      rcases List.mem_singleton.mp hc with rfl
      rfl
  · intro hne
    rw [htuple]
    exact hne

/-- C9 (witness): with splitterPaymentId split_42 and paymentId pay_42,
the tuple carries split_42 and it differs from the notified pay_42. -/
theorem claim_C9_payment_id_precedence_witness :
    (buildPaymentDetails pdExample).paymentId = pdExample.splitterPaymentId ∧
    (buildPaymentDetails pdExample).paymentId ≠ pdExample.paymentId := by
  have h := claim_C9_payment_id_precedence pdExample (by decide) (by decide)
  exact ⟨h.1, h.2.2 (by decide)⟩

end PaymentScreen
